import Mathlib

/-!
Verification of the tailmon telemetry pipeline (agent / server / common)
against its design specification.

The Rust sources are shallowly embedded:
* `common/src/lib.rs` — the `SystemInfo` struct (the spec's Report).
* `agent/src/main.rs` — the reporting loop's failure/backoff logic,
  modelled as a pure step function over the loop-carried counter.
* `server/src/main.rs` — the handlers `receive_metrics` / `get_all_metrics`
  over an association-list model of the `DashMap` store, together with a
  model of the JSON decoding performed by the `Json<SystemInfo>` extractor
  (serde's derived `Deserialize` for the six required fields).
-/

namespace Tailmon

/-! ## Data model (`common/src/lib.rs`) -/

/-- `SystemInfo` from `common/src/lib.rs`.  `cpu_usage` is an `f32` in the
source; it is only ever carried (serialized, stored, copied), never used in
arithmetic, so it is modelled as a rational number. `ram_used_mb` and
`ram_total_mb` are `u64`, modelled as `Nat` (range-checked at JSON decode). -/
structure SystemInfo where
  device_id : String
  os_info : String
  cpu_usage : Rat
  ram_used_mb : Nat
  ram_total_mb : Nat
  last_seen : String
deriving DecidableEq

/-! ## Reporter loop (`agent/src/main.rs`)

The loop body in `main` is modelled as a pure function of the loop-carried
counter `consecutive_failures` and the outcome of the delivery attempt.
The three outcomes mirror the `match` on `client.post(..).send().await`:
`Ok` with success status, `Ok` with non-success status, and `Err`. -/

/-- The three possible results of one delivery attempt. -/
inductive DeliveryOutcome where
  | success
  | statusFailure
  | transportError
deriving DecidableEq

/-- `const MAX_CONSECUTIVE_FAILURES: u32 = 5;` -/
def MAX_CONSECUTIVE_FAILURES : Nat := 5

/-- The fixed sustained-outage cool-down duration (seconds):
`tokio::time::sleep(Duration::from_secs(30))` in the `Err` branch. -/
def COOLDOWN_SECS : Nat := 30

/-- What one loop iteration produces: the counter carried to the next
iteration, whether the 30 s sustained-outage sleep ran, and the
inter-iteration wait in seconds. -/
structure StepResult where
  consecutive_failures : Nat
  cooldown : Bool
  wait_secs : Nat
deriving DecidableEq

/-- The inter-iteration wait computation at the end of the loop body:
`let wait_time = if consecutive_failures > 0 { min(5 + consecutive_failures * 2, 15) } else { 5 };` -/
def computeWait (consecutive_failures : Nat) : Nat :=
  if consecutive_failures > 0 then min (5 + consecutive_failures * 2) 15 else 5

/-- One iteration of the agent loop after the delivery attempt resolved to
`outcome`, starting from counter `n`.  Mirrors the `match` in
`agent/src/main.rs`: on success the counter resets; on a non-success status
the counter is incremented (and nothing else happens); on a transport error
the counter is incremented and, if it has reached
`MAX_CONSECUTIVE_FAILURES`, the 30 s cool-down runs and the counter resets
to 0.  The wait is then computed from the resulting counter. -/
def loopStep (n : Nat) (outcome : DeliveryOutcome) : StepResult :=
  let (n₂, cooldown) :=
    match outcome with
    | .success => (0, false)
    | .statusFailure => (n + 1, false)
    | .transportError =>
        if n + 1 ≥ MAX_CONSECUTIVE_FAILURES then (0, true) else (n + 1, false)
  { consecutive_failures := n₂, cooldown := cooldown, wait_secs := computeWait n₂ }

/-! ## Reporter configuration (`agent/src/main.rs`, `get_server_url`) -/

/-- `const DEFAULT_SERVER_URL: &str = "http://127.0.0.1:3000/api/metrics";` -/
def DEFAULT_SERVER_URL : String := "http://127.0.0.1:3000/api/metrics"

/-- `env::var("TAILMON_SERVER_URL").unwrap_or_else(|_| DEFAULT_SERVER_URL.to_string())`,
with the process environment's value for `TAILMON_SERVER_URL` passed in as
an `Option`. -/
def get_server_url (env : Option String) : String :=
  env.getD DEFAULT_SERVER_URL

/-! ## Collector (`server/src/main.rs`)

The `DashMap<String, SystemInfo>` store is modelled as an association list
with unique keys; `DashMap::insert` replaces the value under an existing
key or appends a new entry.  The JSON machinery of the
`Json<SystemInfo>` axum extractor is modelled by a JSON value type and a
decoder following serde's derived `Deserialize` for `SystemInfo`: an
object, all six fields required, unknown fields ignored, `u64` fields
required to be non-negative integers in range. -/

/-- JSON values (the model of `serde_json::Value`).  Numbers are carried as
rationals; the decoder itself never computes with them. -/
inductive Json where
  | null
  | bool (b : Bool)
  | num (q : Rat)
  | str (s : String)
  | arr (elems : List Json)
  | obj (fields : List (String × Json))

/-- Look a field up in an object's field list (first occurrence; the model
assumes objects without duplicate keys, which serde rejects anyway). -/
def lookupField : List (String × Json) → String → Option Json
  | [], _ => none
  | f :: rest, k => if f.1 = k then some f.2 else lookupField rest k

/-- Field lookup on a JSON value: only objects have fields. -/
def Json.getField : Json → String → Option Json
  | .obj fields, k => lookupField fields k
  | _, _ => none

/-- Decode a JSON value as a `String` field. -/
def Json.asString : Json → Option String
  | .str s => some s
  | _ => none

/-- Decode a JSON value as an `f32` field (any JSON number is accepted). -/
def Json.asF32 : Json → Option Rat
  | .num q => some q
  | _ => none

/-- Decode a JSON value as a `u64` field: a non-negative integer below
`2^64`. -/
def Json.asU64 : Json → Option Nat
  | .num q => if q.den = 1 ∧ 0 ≤ q.num ∧ q.num < (2 : Int) ^ 64 then some q.num.toNat else none
  | _ => none

/-- serde's derived `Deserialize` for `SystemInfo`: all six fields must be
present with the right types; extra fields are ignored; field order is
irrelevant. -/
def decodeSystemInfo (j : Json) : Option SystemInfo := do
  let device_id ← (← j.getField "device_id").asString
  let os_info ← (← j.getField "os_info").asString
  let cpu_usage ← (← j.getField "cpu_usage").asF32
  let ram_used_mb ← (← j.getField "ram_used_mb").asU64
  let ram_total_mb ← (← j.getField "ram_total_mb").asU64
  let last_seen ← (← j.getField "last_seen").asString
  pure { device_id := device_id, os_info := os_info, cpu_usage := cpu_usage,
         ram_used_mb := ram_used_mb, ram_total_mb := ram_total_mb,
         last_seen := last_seen }

/-- An inbound request body: either bytes that do not parse as JSON at all,
or a parsed JSON value. -/
inductive RequestBody where
  | malformed
  | json (j : Json)

/-- What the `Json<SystemInfo>` extractor yields: `none` when the body is
not valid JSON or does not decode as a `SystemInfo`. -/
def decodeBody : RequestBody → Option SystemInfo
  | .malformed => none
  | .json j => decodeSystemInfo j

/-- The response statuses the two API handlers can produce: `StatusCode::OK`
from `receive_metrics` (and the implicit 200 of `get_all_metrics`), or the
4xx rejection the `Json` extractor produces for an undecodable body. -/
inductive StatusCode where
  | ok
  | clientError
deriving DecidableEq

/-- Whether a status is a 4xx client error. -/
def StatusCode.isClientError : StatusCode → Bool
  | .ok => false
  | .clientError => true

/-- An HTTP response: status and body text. -/
structure HttpResponse where
  status : StatusCode
  body : String
deriving DecidableEq

/-- The store: `DashMap<String, SystemInfo>` as an association list. -/
abbrev Store := List (String × SystemInfo)

/-- `DashMap::new()` — the store the server starts with. -/
def emptyStore : Store := []

/-- `DashMap::insert`: replace the value under an existing key, otherwise
append a new entry. -/
def storeInsert (k : String) (v : SystemInfo) : Store → Store
  | [] => [(k, v)]
  | e :: rest => if e.1 = k then (k, v) :: rest else e :: storeInsert k v rest

/-- Look the entry for a key up (`DashMap::get`). -/
def storeFind : Store → String → Option SystemInfo
  | [], _ => none
  | e :: rest, k => if e.1 = k then some e.2 else storeFind rest k

/-- The keys currently in the store. -/
def storeKeys (s : Store) : List String :=
  s.map Prod.fst

/-- The values currently in the store, in entry order — what
`state.metrics.iter().map(|entry| entry.value().clone()).collect()`
produces. -/
def storeValues (s : Store) : List SystemInfo :=
  s.map Prod.snd

/-- How many entries the store holds under a given key. -/
def countKey : Store → String → Nat
  | [], _ => 0
  | e :: rest, k => (if e.1 = k then 1 else 0) + countKey rest k

/-- Store well-formedness, maintained by the handlers: keys are unique
(`DashMap` semantics) and every entry is keyed by its report's
`device_id` (how `receive_metrics` inserts). -/
def StoreWF (s : Store) : Prop :=
  (storeKeys s).Nodup ∧ ∀ e ∈ s, e.2.device_id = e.1

/-- The `receive_metrics` handler, given an already-decoded `SystemInfo`:
`state.metrics.insert(system_info.device_id.clone(), system_info)` then
`(StatusCode::OK, "Veri Alındı")`. -/
def receive_metrics (state : Store) (system_info : SystemInfo) : Store × HttpResponse :=
  (storeInsert system_info.device_id system_info state,
   { status := .ok, body := "Veri Alındı" })

/-- The full `POST /api/metrics` route: the `Json<SystemInfo>` extractor
rejects an undecodable body with a client-error status before the handler
runs; otherwise `receive_metrics` runs. -/
def postMetrics (state : Store) (body : RequestBody) : Store × HttpResponse :=
  match decodeBody body with
  | none => (state, { status := .clientError, body := "" })
  | some info => receive_metrics state info

/-- The `get_all_metrics` handler: collects the current values into a JSON
array, answering 200; the state component is the store after the call. -/
def get_all_metrics (state : Store) : (StatusCode × List SystemInfo) × Store :=
  ((.ok, storeValues state), state)

/-! ## Operation sequences over the store (for the lifecycle claims) -/

/-- One inbound API operation. -/
inductive Op where
  | ingest (body : RequestBody)
  | snapshot

/-- Apply one operation to the store, keeping the resulting store. -/
def applyOp (s : Store) : Op → Store
  | .ingest body => (postMetrics s body).1
  | .snapshot => (get_all_metrics s).2

/-- Run a sequence of operations from a starting store. -/
def runOps : Store → List Op → Store
  | s, [] => s
  | s, op :: rest => runOps (applyOp s op) rest

/-- The `device_id`s of the reports actually ingested (accepted) by a
sequence of operations, in order. -/
def ingestedIds : List Op → List String
  | [] => []
  | .snapshot :: rest => ingestedIds rest
  | .ingest body :: rest =>
    match decodeBody body with
    | none => ingestedIds rest
    | some r => r.device_id :: ingestedIds rest

/-! ## Concrete inputs used by the witnesses -/

/-- A concrete report for device `"alpha"`. -/
def alphaReport : SystemInfo :=
  { device_id := "alpha", os_info := "Ubuntu 22.04", cpu_usage := 25,
    ram_used_mb := 2048, ram_total_mb := 8192, last_seen := "2024-01-01T00:00:00Z" }

/-- A second report for device `"alpha"` with different field values. -/
def alphaReport2 : SystemInfo :=
  { device_id := "alpha", os_info := "Ubuntu 22.04", cpu_usage := 75,
    ram_used_mb := 4096, ram_total_mb := 8192, last_seen := "2024-01-01T00:05:00Z" }

/-- A concrete report for device `"beta"`. -/
def betaReport : SystemInfo :=
  { device_id := "beta", os_info := "Windows 11", cpu_usage := 50,
    ram_used_mb := 1024, ram_total_mb := 4096, last_seen := "2024-01-01T00:01:00Z" }

/-- The store after ingesting `alphaReport` then `betaReport` from empty. -/
def demoStore : Store :=
  (receive_metrics (receive_metrics emptyStore alphaReport).1 betaReport).1

/-- A JSON object missing five of the six required fields. -/
def missingFieldJson : Json :=
  .obj [("device_id", .str "x")]

/-- A report the spec calls semantically invalid: empty `device_id`,
`cpu_usage` outside [0, 100], `ram_used_mb > ram_total_mb`. -/
def weirdReport : SystemInfo :=
  { device_id := "", os_info := "os", cpu_usage := 250,
    ram_used_mb := 100, ram_total_mb := 50, last_seen := "t" }

/-- The JSON encoding of `weirdReport`. -/
def weirdJson : Json :=
  .obj [("device_id", .str ""), ("os_info", .str "os"), ("cpu_usage", .num 250),
        ("ram_used_mb", .num 100), ("ram_total_mb", .num 50), ("last_seen", .str "t")]

/-! ## Spec predicates for the store claims -/

/-- Ingest behaviour (C3): acknowledged 200 response, store becomes the
insert under the report's `device_id`; after ingesting `r₁` then `r₂` with
the same `device_id`, exactly one entry holds that key, it holds `r₂`, `r₂`
is visible in a snapshot, and every other key is untouched. -/
def IngestSpec (s : Store) (r₁ r₂ : SystemInfo) : Prop :=
  (receive_metrics s r₁).2 = { status := .ok, body := "Veri Alındı" } ∧
  (receive_metrics s r₁).1 = storeInsert r₁.device_id r₁ s ∧
  countKey (receive_metrics (receive_metrics s r₁).1 r₂).1 r₂.device_id = 1 ∧
  storeFind (receive_metrics (receive_metrics s r₁).1 r₂).1 r₂.device_id = some r₂ ∧
  r₂ ∈ storeValues (receive_metrics (receive_metrics s r₁).1 r₂).1 ∧
  ∀ k, k ≠ r₂.device_id →
    storeFind (receive_metrics (receive_metrics s r₁).1 r₂).1 k = storeFind s k

/-- Rejection behaviour (C4): a client-error status and an unchanged store. -/
def RejectSpec (s : Store) (body : RequestBody) : Prop :=
  (postMetrics s body).2.status.isClientError = true ∧
  (postMetrics s body).1 = s

/-- Snapshot behaviour (C5): 200, one array element per store entry, and an
element is in the array exactly when it is the report stored under its own
`device_id`. -/
def SnapshotSpec (s : Store) : Prop :=
  (get_all_metrics s).1.1 = .ok ∧
  (get_all_metrics s).1.2.length = s.length ∧
  ∀ r, r ∈ (get_all_metrics s).1.2 ↔ storeFind s r.device_id = some r

/-- No semantic validation (C10): the route answers 200 exactly when the
body decodes, and a decoded report is stored as-is under its own
`device_id`. -/
def NoValidationSpec (s : Store) (body : RequestBody) : Prop :=
  ((postMetrics s body).2.status = .ok ↔ (decodeBody body).isSome = true) ∧
  ∀ r, decodeBody body = some r →
    (postMetrics s body).1 = storeInsert r.device_id r s ∧
    storeFind (postMetrics s body).1 r.device_id = some r

/-! ## Claims about the Reporter loop -/

/-- C1 counterexample: when the 5th consecutive failure is a response with a
non-success status code, the code does not run the cool-down and does not
reset the counter — the cool-down check exists only in the transport-error
branch.  Starting from 4 consecutive failures, a status failure leaves the
counter at 5 with no cool-down. -/
theorem statusFailure_fifth_no_cooldown :
    (loopStep 4 .statusFailure).consecutive_failures = 5 ∧
    (loopStep 4 .statusFailure).cooldown = false := by
  decide

/-- C1 (amended): every failure increments `consecutive_failures`, but the
sustained-outage cool-down (30 s sleep plus reset to 0) runs only when the
failure is a transport error whose increment brings the counter to
`MAX_CONSECUTIVE_FAILURES` or more; a non-success status response never
triggers the cool-down, however large the counter. -/
theorem cooldown_only_on_transportError (n : Nat) :
    ((loopStep n .statusFailure).consecutive_failures = n + 1 ∧
      (loopStep n .statusFailure).cooldown = false) ∧
    ((loopStep n .transportError).cooldown = decide (n + 1 ≥ MAX_CONSECUTIVE_FAILURES) ∧
      (loopStep n .transportError).consecutive_failures =
        if n + 1 ≥ MAX_CONSECUTIVE_FAILURES then 0 else n + 1) := by
  refine ⟨⟨rfl, rfl⟩, ?_, ?_⟩ <;>
    simp only [loopStep, MAX_CONSECUTIVE_FAILURES] <;>
    by_cases h : n + 1 ≥ 5 <;> simp [h]

/-- C2: the inter-iteration wait is 5 seconds when the counter (after the
delivery attempt) is 0, and `min (5 + 2·n) 15` seconds when it is `n+1 > 0`
— in particular 7, 9, 11, 13, 15 seconds for counters 1–5 — and the loop
step's wait is exactly this function of its resulting counter, with a
success always yielding a 5-second wait. -/
theorem wait_backoff_bound :
    computeWait 0 = 5 ∧
    (∀ n : Nat, computeWait (n + 1) = min (5 + 2 * (n + 1)) 15) ∧
    computeWait 1 = 7 ∧ computeWait 2 = 9 ∧ computeWait 3 = 11 ∧
    computeWait 4 = 13 ∧ computeWait 5 = 15 ∧
    (∀ (n : Nat) (o : DeliveryOutcome),
      (loopStep n o).wait_secs = computeWait (loopStep n o).consecutive_failures) ∧
    (∀ n : Nat, (loopStep n .success).wait_secs = 5) := by
  refine ⟨rfl, ?_, rfl, rfl, rfl, rfl, rfl, ?_, ?_⟩
  · intro n
    simp [computeWait, Nat.mul_comm]
  · intro n o
    cases o <;> simp [loopStep]
  · intro n
    rfl

/-- C6 counterexample: when the 5th consecutive delivery failure is a
non-success status response, no cool-down runs, the counter carried to the
next iteration is 5 (not 0), and the wait computed at the end of that
iteration is 15 seconds (not 5). -/
theorem fifth_statusFailure_wait_fifteen :
    (loopStep 4 .statusFailure).consecutive_failures = 5 ∧
    (loopStep 4 .statusFailure).wait_secs = 15 ∧
    (loopStep 4 .statusFailure).cooldown = false := by
  decide

/-- C6 (amended): after an iteration whose 5th-or-later consecutive failure
is a transport error — the only kind that triggers the 30-second cool-down —
the counter used for the next iteration's backoff is 0, the cool-down ran,
and the wait computed at the end of that iteration is the no-failure value
of 5 seconds.  (`n + 4` ranges over all starting counters ≥ 4, exactly
those for which the increment reaches `MAX_CONSECUTIVE_FAILURES`.) -/
theorem cooldown_resets_counter (n : Nat) :
    loopStep (n + 4) .transportError =
      { consecutive_failures := 0, cooldown := true, wait_secs := 5 } := by
  simp [loopStep, MAX_CONSECUTIVE_FAILURES, computeWait, Nat.le_add_left]

/-- C8: the Reporter's collector URL resolution — if the
`TAILMON_SERVER_URL` environment variable is set its value is used
verbatim, and if it is absent the hardcoded default
`http://127.0.0.1:3000/api/metrics` is used. -/
theorem get_server_url_spec :
    (∀ v : String, get_server_url (some v) = v) ∧
    get_server_url none = "http://127.0.0.1:3000/api/metrics" := by
  exact ⟨fun v => rfl, rfl⟩

/-! ## Store lemmas -/

theorem storeFind_storeInsert_self (s : Store) (k : String) (v : SystemInfo) :
    storeFind (storeInsert k v s) k = some v := by
  induction s with
  | nil => simp [storeInsert, storeFind]
  | cons e rest ih =>
    by_cases h : e.1 = k
    · simp [storeInsert, storeFind, h]
    · simp [storeInsert, storeFind, h, ih]

theorem storeFind_storeInsert_ne (s : Store) (k k₂ : String) (v : SystemInfo)
    (h : k₂ ≠ k) : storeFind (storeInsert k v s) k₂ = storeFind s k₂ := by
  have h₂ : ¬(k = k₂) := fun hc => h hc.symm
  induction s with
  | nil => simp [storeInsert, storeFind, h₂]
  | cons e rest ih =>
    by_cases he : e.1 = k
    · simp [storeInsert, storeFind, he, h₂]
    · simp [storeInsert, storeFind, he, ih]

theorem mem_storeKeys_storeInsert (s : Store) (k a : String) (v : SystemInfo) :
    a ∈ storeKeys (storeInsert k v s) ↔ a = k ∨ a ∈ storeKeys s := by
  induction s with
  | nil => simp [storeInsert, storeKeys]
  | cons e rest ih =>
    by_cases h : e.1 = k
    · subst h
      have hred : storeInsert e.1 v (e :: rest) = (e.1, v) :: rest := by
        simp [storeInsert]
      rw [hred]
      simp only [storeKeys, List.map_cons, List.mem_cons]
      tauto
    · have hred : storeInsert k v (e :: rest) = e :: storeInsert k v rest := by
        simp [storeInsert, h]
      rw [hred]
      simp only [storeKeys, List.map_cons, List.mem_cons] at ih ⊢
      tauto

theorem countKey_eq_zero_of_not_mem (s : Store) (k : String)
    (h : k ∉ storeKeys s) : countKey s k = 0 := by
  induction s with
  | nil => rfl
  | cons e rest ih =>
    simp only [storeKeys, List.map_cons, List.mem_cons, not_or] at h
    have hne : ¬e.1 = k := fun hc => h.1 hc.symm
    have hr : countKey rest k = 0 := ih (by simpa [storeKeys] using h.2)
    simp [countKey, hne, hr]

theorem countKey_storeInsert (s : Store) (k : String) (v : SystemInfo)
    (h : (storeKeys s).Nodup) : countKey (storeInsert k v s) k = 1 := by
  induction s with
  | nil => simp [storeInsert, countKey]
  | cons e rest ih =>
    simp only [storeKeys, List.map_cons, List.nodup_cons] at h
    by_cases he : e.1 = k
    · subst he
      have hz : countKey rest e.1 = 0 :=
        countKey_eq_zero_of_not_mem rest e.1 (by simpa [storeKeys] using h.1)
      simp [storeInsert, countKey, hz]
    · have hr : countKey (storeInsert k v rest) k = 1 := ih (by simpa [storeKeys] using h.2)
      simp [storeInsert, countKey, he, hr]

theorem nodup_storeKeys_storeInsert (s : Store) (k : String) (v : SystemInfo)
    (h : (storeKeys s).Nodup) : (storeKeys (storeInsert k v s)).Nodup := by
  induction s with
  | nil => simp [storeInsert, storeKeys]
  | cons e rest ih =>
    have hnd : e.1 ∉ rest.map Prod.fst ∧ (rest.map Prod.fst).Nodup := by
      simpa [storeKeys] using h
    by_cases he : e.1 = k
    · have hred : storeInsert k v (e :: rest) = (k, v) :: rest := by
        simp [storeInsert, he]
      rw [hred]
      simp only [storeKeys, List.map_cons, List.nodup_cons]
      exact ⟨he ▸ hnd.1, hnd.2⟩
    · have hred : storeInsert k v (e :: rest) = e :: storeInsert k v rest := by
        simp [storeInsert, he]
      rw [hred]
      simp only [storeKeys, List.map_cons, List.nodup_cons]
      refine ⟨?_, by simpa [storeKeys] using ih (by simpa [storeKeys] using hnd.2)⟩
      intro hmem
      rcases (mem_storeKeys_storeInsert rest k e.1 v).mp (by simpa [storeKeys] using hmem) with
        h₁ | h₁
      · exact he h₁
      · exact hnd.1 (by simpa [storeKeys] using h₁)

theorem entries_keyed_storeInsert (s : Store) (r : SystemInfo)
    (h : ∀ e ∈ s, e.2.device_id = e.1) :
    ∀ e ∈ storeInsert r.device_id r s, e.2.device_id = e.1 := by
  induction s with
  | nil =>
    intro e he
    simp only [storeInsert, List.mem_singleton] at he
    subst he
    rfl
  | cons f rest ih =>
    intro e he
    by_cases hf : f.1 = r.device_id
    · have hred : storeInsert r.device_id r (f :: rest) = (r.device_id, r) :: rest := by
        simp [storeInsert, hf]
      rw [hred] at he
      rcases List.mem_cons.mp he with rfl | he₂
      · rfl
      · exact h e (List.mem_cons_of_mem f he₂)
    · have hred : storeInsert r.device_id r (f :: rest) = f :: storeInsert r.device_id r rest := by
        simp [storeInsert, hf]
      rw [hred] at he
      rcases List.mem_cons.mp he with hef | he₂
      · rw [hef]
        exact h f (List.mem_cons_self f rest)
      · exact ih (fun y hy => h y (List.mem_cons_of_mem f hy)) e he₂

theorem storeWF_storeInsert (s : Store) (r : SystemInfo) (h : StoreWF s) :
    StoreWF (storeInsert r.device_id r s) :=
  ⟨nodup_storeKeys_storeInsert s r.device_id r h.1,
   entries_keyed_storeInsert s r h.2⟩

theorem storeFind_some_mem_keys (s : Store) (k : String) (v : SystemInfo)
    (h : storeFind s k = some v) : k ∈ storeKeys s := by
  induction s with
  | nil => simp [storeFind] at h
  | cons e rest ih =>
    by_cases he : e.1 = k
    · simp [storeKeys, he]
    · simp only [storeFind, if_neg he] at h
      simp only [storeKeys, List.map_cons, List.mem_cons]
      exact Or.inr (by simpa [storeKeys] using ih h)

theorem storeFind_some_mem_values (s : Store) (k : String) (v : SystemInfo)
    (h : storeFind s k = some v) : v ∈ storeValues s := by
  induction s with
  | nil => simp [storeFind] at h
  | cons e rest ih =>
    by_cases he : e.1 = k
    · simp only [storeFind, if_pos he, Option.some.injEq] at h
      simp [storeValues, h]
    · simp only [storeFind, if_neg he] at h
      simp only [storeValues, List.map_cons, List.mem_cons]
      exact Or.inr (by simpa [storeValues] using ih h)

theorem mem_storeValues_iff_storeFind (s : Store) (r : SystemInfo)
    (h : StoreWF s) : r ∈ storeValues s ↔ storeFind s r.device_id = some r := by
  induction s with
  | nil => simp [storeValues, storeFind]
  | cons e rest ih =>
    have hkey : e.2.device_id = e.1 := h.2 e (List.mem_cons_self e rest)
    have hnd : e.1 ∉ rest.map Prod.fst ∧ (rest.map Prod.fst).Nodup := by
      simpa [storeKeys] using h.1
    have hwfr : StoreWF rest :=
      ⟨by simpa [storeKeys] using hnd.2, fun y hy => h.2 y (List.mem_cons_of_mem e hy)⟩
    constructor
    · intro hmem
      simp only [storeValues, List.map_cons, List.mem_cons] at hmem
      rcases hmem with rfl | hmem
      · simp [storeFind, hkey]
      · have hfind := (ih hwfr).mp (by simpa [storeValues] using hmem)
        have hne : ¬e.1 = r.device_id := by
          intro hc
          refine hnd.1 ?_
          rw [hc]
          simpa [storeKeys] using storeFind_some_mem_keys rest r.device_id r hfind
        simp [storeFind, hne, hfind]
    · intro hfind
      exact storeFind_some_mem_values _ _ _ hfind


theorem runOps_keys_mem (ops : List Op) : ∀ (s : Store) (k : String),
    k ∈ storeKeys (runOps s ops) ↔ k ∈ storeKeys s ∨ k ∈ ingestedIds ops := by
  induction ops with
  | nil => simp [runOps, ingestedIds]
  | cons op rest ih =>
    intro s k
    cases op with
    | snapshot =>
      simp [runOps, applyOp, get_all_metrics, ingestedIds, ih]
    | ingest body =>
      cases hdec : decodeBody body with
      | none =>
        simp [runOps, applyOp, postMetrics, hdec, ingestedIds, ih]
      | some r =>
        simp only [runOps, applyOp, postMetrics, hdec, receive_metrics, ingestedIds,
          ih, mem_storeKeys_storeInsert, List.mem_cons]
        tauto

/-! ## Claims about the Collector -/

/-- C3: for every decoded report, Ingest answers 200 with the acknowledgment
body and inserts or overwrites exactly the entry keyed by the report's
`device_id`; ingesting the same `device_id` twice leaves exactly one entry
for that key, holding the second report, visible in a snapshot, with all
other keys untouched. -/
theorem ingest_last_write_wins (s : Store) (r₁ r₂ : SystemInfo)
    (hwf : StoreWF s) (hid : r₁.device_id = r₂.device_id) : IngestSpec s r₁ r₂ := by
  have hnodup : (storeKeys (storeInsert r₁.device_id r₁ s)).Nodup :=
    nodup_storeKeys_storeInsert s r₁.device_id r₁ hwf.1
  have hwf₂ : StoreWF (storeInsert r₁.device_id r₁ s) := storeWF_storeInsert s r₁ hwf
  refine ⟨rfl, rfl, ?_, ?_, ?_, ?_⟩
  · simpa [receive_metrics, hid] using
      countKey_storeInsert (storeInsert r₁.device_id r₁ s) r₂.device_id r₂ hnodup
  · exact storeFind_storeInsert_self _ _ _
  · exact storeFind_some_mem_values _ _ _ (storeFind_storeInsert_self _ _ _)
  · intro k hk
    have h₁ : storeFind (storeInsert r₂.device_id r₂ (storeInsert r₁.device_id r₁ s)) k =
        storeFind (storeInsert r₁.device_id r₁ s) k :=
      storeFind_storeInsert_ne _ _ _ _ hk
    have h₂ : storeFind (storeInsert r₁.device_id r₁ s) k = storeFind s k :=
      storeFind_storeInsert_ne _ _ _ _ (hid ▸ hk)
    simpa [receive_metrics] using h₁.trans h₂

/-- C3 witness: ingesting two concrete reports for device `"alpha"` into the
empty store. -/
theorem ingest_last_write_wins_witness :
    StoreWF emptyStore ∧ alphaReport.device_id = alphaReport2.device_id ∧
    IngestSpec emptyStore alphaReport alphaReport2 :=
  ⟨⟨List.nodup_nil, by simp [emptyStore]⟩, rfl,
    ingest_last_write_wins emptyStore alphaReport alphaReport2
      ⟨List.nodup_nil, by simp [emptyStore]⟩ rfl⟩

/-- C4: whenever the body fails to decode as a `SystemInfo` — not valid
JSON, or JSON missing a required field — the route answers a client-error
status and the store is left completely unchanged. -/
theorem malformed_body_rejected (s : Store) (body : RequestBody)
    (h : decodeBody body = none) : RejectSpec s body := by
  constructor <;> simp [postMetrics, h, StatusCode.isClientError]

/-- C4 witness: a JSON object missing five required fields, and a body that
is not JSON at all, are both rejected with the store unchanged. -/
theorem malformed_body_rejected_witness :
    decodeBody (.json missingFieldJson) = none ∧
    RejectSpec emptyStore (.json missingFieldJson) ∧
    decodeBody .malformed = none ∧
    RejectSpec emptyStore .malformed :=
  ⟨by decide, malformed_body_rejected emptyStore (.json missingFieldJson) (by decide),
   rfl, malformed_body_rejected emptyStore .malformed rfl⟩

/-- C5: for every well-formed store, `GET /api/all_metrics` answers 200 with
an array holding exactly one report per store entry, a report appearing in
the array exactly when it is the one stored under its own `device_id`. -/
theorem snapshot_shape (s : Store) (hwf : StoreWF s) : SnapshotSpec s :=
  ⟨rfl, List.length_map s Prod.snd,
    fun r => mem_storeValues_iff_storeFind s r hwf⟩

/-- C5 witness: after ingesting `alphaReport` and `betaReport` from empty,
the snapshot is exactly the 2-element array of those two reports. -/
theorem snapshot_shape_witness :
    StoreWF demoStore ∧ SnapshotSpec demoStore ∧
    (get_all_metrics demoStore).1.2 = [alphaReport, betaReport] :=
  ⟨by unfold StoreWF; exact ⟨by decide, by decide⟩,
   snapshot_shape demoStore (by unfold StoreWF; exact ⟨by decide, by decide⟩),
   by decide⟩

/-- C7: the store starts empty and, after any finite sequence of ingest and
snapshot operations, its key set is exactly the set of `device_id`s of the
reports ingested so far — nothing is ever removed. -/
theorem store_keys_are_ingested_ids :
    storeKeys emptyStore = [] ∧
    ∀ (ops : List Op) (k : String),
      k ∈ storeKeys (runOps emptyStore ops) ↔ k ∈ ingestedIds ops := by
  refine ⟨rfl, fun ops k => ?_⟩
  rw [runOps_keys_mem]
  simp [emptyStore, storeKeys]

/-- C9: the snapshot handler never modifies the store — the state after
`get_all_metrics` is identical to the state before, entry for entry. -/
theorem snapshot_does_not_mutate (s : Store) :
    (get_all_metrics s).2 = s ∧
    ∀ k, storeFind (get_all_metrics s).2 k = storeFind s k :=
  ⟨rfl, fun _ => rfl⟩

/-- C10: the route rejects exactly the bodies that fail to decode; a decoded
report is accepted with 200 and stored as-is under its own `device_id`, with
no semantic validation of any field. -/
theorem ingest_no_semantic_validation (s : Store) (body : RequestBody) :
    NoValidationSpec s body := by
  constructor
  · cases hdec : decodeBody body <;>
      simp [postMetrics, hdec, receive_metrics]
  · intro r hdec
    refine ⟨by simp [postMetrics, hdec, receive_metrics], ?_⟩
    simp only [postMetrics, hdec, receive_metrics]
    exact storeFind_storeInsert_self _ _ _

/-- C10 witness: a report with empty `device_id`, `cpu_usage` 250 and
`ram_used_mb` 100 > `ram_total_mb` 50 decodes, is accepted with 200, and is
stored unchanged under the empty-string key. -/
theorem ingest_no_semantic_validation_witness :
    decodeBody (.json weirdJson) = some weirdReport ∧
    (postMetrics emptyStore (.json weirdJson)).2.status = .ok ∧
    storeFind (postMetrics emptyStore (.json weirdJson)).1 "" = some weirdReport :=
  ⟨by decide,
   (ingest_no_semantic_validation emptyStore (.json weirdJson)).1.mpr (by decide),
   ((ingest_no_semantic_validation emptyStore (.json weirdJson)).2 weirdReport (by decide)).2⟩

end Tailmon
